import Mathlib

/-!
Shallow embedding of `src/cm.py` (a Windows clipboard manager).

The program watches for clipboard-change notifications. On each one,
`Clipboard._process_clip` (lines 74-103) reads the OS change-sequence
number, discards duplicates, acquires the clipboard with up to four
retries, and then either backs up the enumerated formats
(`_backup_clipboard`, lines 105-124) into the snapshot `_clip_data`,
or, when the clipboard is empty, restores the snapshot
(`_restore_clipboard`, lines 126-144).  `listen` / `stop`
(lines 146-173) run and terminate the message loop.

Modelling choices:
* A clipboard (and the snapshot dictionary) is an association list
  `List (Nat × Bytes)` in enumeration order; Python dicts preserve
  insertion order, so the order in which the snapshot is iterated during
  restore equals the order in which formats were captured.
* The outside world for one evaluation of `_process_clip` is a
  `ClipEnv`: the sequence number read at entry (`seq1`), success of
  each `OpenClipboard` attempt (`openOk`), success of
  `EnumClipboardFormats` while the clipboard is open (`enumOk`),
  the clipboard contents (`clip`), per-format success of
  `GetClipboardData` (`readOk`) and `SetClipboardData` (`writeOk`),
  and the fresh sequence number read in the `finally` block (`seq2`).
* Windows/pywin32 semantics of the primitives: `EnumClipboardFormats`
  and `CloseClipboard` raise an exception when the calling thread has
  not opened the clipboard (pywin32 converts the FALSE/last-error
  return into a raised `error`).  `EmptyClipboard` after a successful
  open is assumed to succeed.
* A Python exception that escapes a function is the `raised := true`
  channel of the result; the state components carry the mutations that
  happened before (and in `finally` blocks, after) the raise, exactly
  as Python leaves `self` mutated when an exception propagates.
-/

/-- Raw payload bytes of one clipboard format. -/
abbrev Bytes := List Nat

/-- Clipboard contents / snapshot: formats with payloads, in enumeration
(resp. insertion) order.  Format identifiers are positive integers, so the
sentinel 0 returned by `EnumClipboardFormats` never occurs as a key. -/
abbrev Clip := List (Nat × Bytes)

/-- The identifiers returned by the four `RegisterClipboardFormat` calls in
lines 16, 25, 26, 27 of `src/cm.py`; they are assigned by the OS at startup,
so the embedding takes them as parameters. -/
structure RegisteredFormats where
  rtf : Nat
  html : Nat
  svg : Nat
  png : Nat

/-- The allow-list `SUPPORTED_CF` (src/cm.py lines 15-29).
`CF_TEXT = 1`, `CF_OEMTEXT = 7`, `CF_LOCALE = 16`, `CF_DIBV5 = 17`,
`CF_UNICODETEXT = 13`; the registered formats come from `r`. -/
def SUPPORTED_CF (r : RegisteredFormats) : List Nat :=
  [r.rtf, 1, 7, 16, 17, 13, r.html, r.svg, r.png]

/-- The loop of `_backup_clipboard` (src/cm.py lines 110-122): walk the
enumerated formats; a format in `SUPPORTED_CF` whose `GetClipboardData`
succeeds is stored in the fresh dictionary `data`; a failed read is logged
and skipped (lines 114-118); a format outside the allow-list is only
logged (lines 119-120). -/
def backupLoop (r : RegisteredFormats) (readOk : Nat → Bool) : Clip → Clip
  | [] => []
  | (f, b) :: rest =>
      if f ∈ SUPPORTED_CF r then
        if readOk f then (f, b) :: backupLoop r readOk rest
        else backupLoop r readOk rest
      else backupLoop r readOk rest

/-- Translation of `_backup_clipboard` (src/cm.py lines 105-124): returns the new value of
`self._clip_data` (the assignment in line 123), assuming the
`EnumClipboardFormats` calls succeed. -/
def backup_clipboard (r : RegisteredFormats) (readOk : Nat → Bool)
    (clip : Clip) : Clip :=
  backupLoop r readOk clip

/-- Result of one run of `_restore_clipboard`. -/
structure RestoreResult where
  /-- Clipboard contents when the function returns. -/
  clip : Clip
  /-- Whether `EmptyClipboard` (line 132) was executed. -/
  emptied : Bool
  /-- The formats passed to `SetClipboardData`, in call order. -/
  writes : List Nat
  /-- Whether the `except` branch in lines 140-143 logged a write error. -/
  errorLogged : Bool
  deriving Repr, DecidableEq

/-- The loop of `_restore_clipboard` (src/cm.py lines 134-143): write each
snapshot entry in order; the first failing `SetClipboardData` is logged and
the function returns at once (line 143), abandoning the remaining entries.
Returns the written entries, the attempted formats, and the failure flag. -/
def restoreLoop (writeOk : Nat → Bool) : Clip → Clip × List Nat × Bool
  | [] => ([], [], false)
  | (f, b) :: rest =>
      if writeOk f then
        ((f, b) :: (restoreLoop writeOk rest).1,
         f :: (restoreLoop writeOk rest).2.1,
         (restoreLoop writeOk rest).2.2)
      else ([], [f], true)

/-- Translation of `_restore_clipboard` (src/cm.py lines 126-144) as a function of the
snapshot `clip_data` and the current clipboard `clip`: an empty snapshot
returns at once (lines 127-129) leaving the clipboard untouched; otherwise
the clipboard is emptied (line 132) and the snapshot entries are written
until the first failure. -/
def restore_clipboard (writeOk : Nat → Bool) (clip_data : Clip)
    (clip : Clip) : RestoreResult :=
  if clip_data = [] then
    { clip := clip, emptied := false, writes := [], errorLogged := false }
  else
    { clip := (restoreLoop writeOk clip_data).1,
      emptied := true,
      writes := (restoreLoop writeOk clip_data).2.1,
      errorLogged := (restoreLoop writeOk clip_data).2.2 }

/-- The mutable watcher fields touched by `_process_clip`:
`self._clip_data` and `self._last_clip_seq`. -/
structure ClipState where
  clip_data : Clip
  last_clip_seq : Nat
  deriving Repr, DecidableEq

/-- The outside world during one evaluation of `_process_clip`. -/
structure ClipEnv where
  /-- Value of `GetClipboardSequenceNumber()` at entry (line 75). -/
  seq1 : Nat
  /-- Success of `OpenClipboard()` on attempt `i` of the retry loop
  (lines 82-89, `i` ranges over 1..4). -/
  openOk : Nat → Bool
  /-- Success of the `EnumClipboardFormats` calls while the clipboard is
  open (lines 92, 108, 121); with the clipboard not open they raise
  regardless of this flag. -/
  enumOk : Bool
  /-- The formats currently on the clipboard, in enumeration order. -/
  clip : Clip
  /-- Per-format success of `GetClipboardData` (line 115). -/
  readOk : Nat → Bool
  /-- Per-format success of `SetClipboardData` (line 137). -/
  writeOk : Nat → Bool
  /-- Value of `GetClipboardSequenceNumber()` re-read in the `finally`
  block (line 103). -/
  seq2 : Nat

/-- Result of one evaluation of `_process_clip`. -/
structure ProcResult where
  /-- The watcher fields after the call. -/
  state : ClipState
  /-- Clipboard contents after the call. -/
  clip : Clip
  /-- Whether some `OpenClipboard` attempt succeeded (access acquired). -/
  acquired : Bool
  /-- Whether `CloseClipboard` (line 101) executed successfully. -/
  released : Bool
  /-- Whether `_backup_clipboard` ran to completion. -/
  didBackup : Bool
  /-- Whether `_restore_clipboard` was invoked. -/
  didRestore : Bool
  /-- Whether `EmptyClipboard` was executed. -/
  emptied : Bool
  /-- The formats passed to `SetClipboardData`, in call order. -/
  writes : List Nat
  /-- Whether an exception propagated out of `_process_clip`. -/
  raised : Bool
  deriving Repr, DecidableEq

/-- The retry loop of lines 82-89: `for i in range(1, 5)` tries
`OpenClipboard()`, breaking on the first success; each failure is logged.
The loop ends with the clipboard open exactly when some attempt
succeeded. -/
def openRetry (openOk : Nat → Bool) : Bool :=
  openOk 1 || openOk 2 || openOk 3 || openOk 4

/-- Translation of `_process_clip` (src/cm.py lines 74-103).
Duplicate check (lines 78-80): a sequence number ≤ `_last_clip_seq` returns
at once.  Then the open-retry loop; note the loop body has no post-loop
check, so when every attempt fails, execution still enters the
`try` block of line 91 with the clipboard not open:
`EnumClipboardFormats(0)` raises, the `finally` block runs
`CloseClipboard()` which also raises (the thread never opened the
clipboard), so line 103 is not reached and `_last_clip_seq` keeps its old
value while the exception propagates.
With the clipboard open, a failing `EnumClipboardFormats` (line 92) raises
out of the `try` body; the `finally` (lines 100-103) still closes the
clipboard and re-reads the sequence number before the exception leaves the
function.  Otherwise a non-zero first format selects backup (lines 95-96),
a zero first format selects restore (lines 97-98), and the `finally` block
closes the clipboard and stores the fresh sequence number. -/
def process_clip (r : RegisteredFormats) (env : ClipEnv)
    (s : ClipState) : ProcResult :=
  if s.last_clip_seq ≥ env.seq1 then
    { state := s, clip := env.clip, acquired := false, released := false,
      didBackup := false, didRestore := false, emptied := false,
      writes := [], raised := false }
  else if openRetry env.openOk then
    if env.enumOk then
      if env.clip ≠ [] then
        { state := { clip_data := backup_clipboard r env.readOk env.clip,
                     last_clip_seq := env.seq2 },
          clip := env.clip, acquired := true, released := true,
          didBackup := true, didRestore := false, emptied := false,
          writes := [], raised := false }
      else
        { state := { clip_data := s.clip_data, last_clip_seq := env.seq2 },
          clip := (restore_clipboard env.writeOk s.clip_data env.clip).clip,
          acquired := true, released := true,
          didBackup := false, didRestore := true,
          emptied := (restore_clipboard env.writeOk s.clip_data env.clip).emptied,
          writes := (restore_clipboard env.writeOk s.clip_data env.clip).writes,
          raised := false }
    else
      { state := { clip_data := s.clip_data, last_clip_seq := env.seq2 },
        clip := env.clip, acquired := true, released := true,
        didBackup := false, didRestore := false, emptied := false,
        writes := [], raised := true }
  else
    { state := s, clip := env.clip, acquired := false, released := false,
      didBackup := false, didRestore := false, emptied := false,
      writes := [], raised := true }

/-- The `_thread_id` field of the watcher: 0 while stopped, the listening
thread id (a positive integer on Windows) while running. -/
abbrev ListenerState := Nat

namespace Clipboard

/-- Lifecycle effect of `listen` (src/cm.py lines 146-169) on `_thread_id`:
already running (line 147) returns without creating anything; otherwise the
runner thread registers the window as a clipboard-format listener and
stores its thread id `tid`.  The second component records whether a new
listening context was created. -/
def listen (tid : Nat) (s : ListenerState) : ListenerState × Bool :=
  if s > 0 then (s, false) else (tid, true)

/-- Lifecycle effect of `stop` (src/cm.py lines 171-173) on `_thread_id`:
while running, `WM_QUIT` is posted, `PumpMessages` returns and the runner
resets `_thread_id` to 0 (lines 159-162); while stopped, nothing is posted.
The second component records whether `WM_QUIT` was posted. -/
def stop (s : ListenerState) : ListenerState × Bool :=
  if s > 0 then (0, true) else (s, false)

/-- Whether an exception escapes a call to `listen` to its caller.
The function `listen` wraps nothing in a handler: when `_trigger_at_start`
is set and the watcher is stopped, `self._process_clip()` runs
synchronously on the calling thread (lines 151-152) and any exception it
raises propagates to the caller of `listen`.  Exceptions inside the runner
thread stay on that daemon thread, and exceptions inside the window
procedure are printed and swallowed by the pywin32 dispatch layer, so
neither reaches the caller of `listen`. -/
def listen_raises (r : RegisteredFormats) (trigger_at_start : Bool)
    (env : ClipEnv) (s : ClipState) (thread_id : ListenerState) : Bool :=
  if thread_id > 0 then false
  else if trigger_at_start then (process_clip r env s).raised
  else false

end Clipboard

/-! ## Helper lemmas -/

/-- Sample values for the four OS-assigned registered format identifiers,
used to instantiate theorems at concrete inputs. -/
def sampleFormats : RegisteredFormats := ⟨49443, 49444, 49445, 49446⟩

/-- Every entry kept by the backup loop is an entry of the enumerated
clipboard whose format is in the allow-list. -/
theorem backupLoop_mem (r : RegisteredFormats) (readOk : Nat → Bool)
    (clip : Clip) :
    ∀ p ∈ backupLoop r readOk clip, p ∈ clip ∧ p.1 ∈ SUPPORTED_CF r := by
  induction clip with
  | nil => intro p hp; simp [backupLoop] at hp
  | cons hd tl ih =>
    obtain ⟨f, b⟩ := hd
    intro p hp
    by_cases hf : f ∈ SUPPORTED_CF r
    · by_cases hr : readOk f = true
      · rw [backupLoop, if_pos hf, if_pos hr] at hp
        rcases List.mem_cons.mp hp with h | h
        · exact ⟨by simp [h], by rw [h]; exact hf⟩
        · exact ⟨List.mem_cons_of_mem _ (ih p h).1, (ih p h).2⟩
      · rw [backupLoop, if_pos hf, if_neg hr] at hp
        exact ⟨List.mem_cons_of_mem _ (ih p hp).1, (ih p hp).2⟩
    · rw [backupLoop, if_neg hf] at hp
      exact ⟨List.mem_cons_of_mem _ (ih p hp).1, (ih p hp).2⟩

/-- When every enumerated format reads successfully, the formats kept by
the backup loop are exactly the enumerated formats in the allow-list. -/
theorem backupLoop_keys (r : RegisteredFormats) (readOk : Nat → Bool)
    (clip : Clip) (h : ∀ f ∈ List.map Prod.fst clip, readOk f = true)
    (g : Nat) :
    g ∈ List.map Prod.fst (backupLoop r readOk clip) ↔
      g ∈ List.map Prod.fst clip ∧ g ∈ SUPPORTED_CF r := by
  induction clip with
  | nil => simp [backupLoop]
  | cons hd tl ih =>
    obtain ⟨f, b⟩ := hd
    have hf : readOk f = true := h f (by simp)
    have htl : ∀ x ∈ List.map Prod.fst tl, readOk x = true :=
      fun x hx => h x (by simp [hx])
    by_cases hmem : f ∈ SUPPORTED_CF r
    · rw [backupLoop, if_pos hmem, if_pos hf]
      simp only [List.map_cons, List.mem_cons, ih htl]
      constructor
      · rintro (hg | ⟨hg1, hg2⟩)
        · exact ⟨Or.inl hg, hg ▸ hmem⟩
        · exact ⟨Or.inr hg1, hg2⟩
      · rintro ⟨hg | hg1, hg2⟩
        · exact Or.inl hg
        · exact Or.inr ⟨hg1, hg2⟩
    · rw [backupLoop, if_neg hmem]
      simp only [List.map_cons, List.mem_cons, ih htl]
      constructor
      · rintro ⟨hg1, hg2⟩
        exact ⟨Or.inr hg1, hg2⟩
      · rintro ⟨hg | hg1, hg2⟩
        · exact absurd (hg ▸ hg2) hmem
        · exact ⟨hg1, hg2⟩

/-- The restore loop on a snapshot whose entries all write successfully up
to a first failing format writes exactly that prefix, attempts exactly the
prefix formats plus the failing one, and reports the failure. -/
theorem restoreLoop_prefix (writeOk : Nat → Bool) (f : Nat) (b : Bytes)
    (s2 : Clip) :
    ∀ s1 : Clip, (∀ g ∈ List.map Prod.fst s1, writeOk g = true) →
    writeOk f = false →
    restoreLoop writeOk (s1 ++ (f, b) :: s2) =
      (s1, List.map Prod.fst s1 ++ [f], true) := by
  intro s1
  induction s1 with
  | nil => intro _ hf; simp [restoreLoop, hf]
  | cons hd tl ih =>
    obtain ⟨g, c⟩ := hd
    intro h1 hf
    have hg : writeOk g = true := h1 g (by simp)
    have htl : ∀ x ∈ List.map Prod.fst tl, writeOk x = true :=
      fun x hx => h1 x (by simp [hx])
    simp [restoreLoop, hg, ih htl hf]

/-! ## Claims -/

/-- C2: a delivered clipboard-change notification whose change-sequence
number is at most the stored `_last_clip_seq` is discarded by the check in
lines 78-80: `_process_clip` performs no backup and no restore, attempts no
write, and leaves the snapshot, the cursor, and the clipboard unchanged. -/
theorem duplicate_notification_no_action (r : RegisteredFormats)
    (env : ClipEnv) (s : ClipState) (h : env.seq1 ≤ s.last_clip_seq) :
    process_clip r env s =
      { state := s, clip := env.clip, acquired := false, released := false,
        didBackup := false, didRestore := false, emptied := false,
        writes := [], raised := false } := by
  unfold process_clip
  rw [if_pos h]

/-- Witness for C2 at a concrete duplicate notification (sequence 5 with
cursor already at 5). -/
theorem duplicate_notification_no_action_witness :
    process_clip sampleFormats
      ⟨5, fun _ => true, true, [(1, [9])], fun _ => true, fun _ => true, 8⟩
      ⟨[(13, [7])], 5⟩ =
      { state := ⟨[(13, [7])], 5⟩, clip := [(1, [9])], acquired := false,
        released := false, didBackup := false, didRestore := false,
        emptied := false, writes := [], raised := false } :=
  duplicate_notification_no_action sampleFormats _ _ (by decide)

/-- C1: round-trip.  A clipboard holding exactly the formats `A` and `B`
with payloads `a` and `b`, both formats in the allow-list, is backed up by
one evaluation; after the clipboard is emptied externally, the next
evaluation restores it to exactly those two entries, assuming every read
and write succeeds and both evaluations acquire the clipboard. -/
theorem round_trip_backup_clear_restore
    (r : RegisteredFormats) (env1 env2 : ClipEnv) (s : ClipState)
    (A B : Nat) (a b : Bytes) (_hAB : A ≠ B)
    (hA : A ∈ SUPPORTED_CF r) (hB : B ∈ SUPPORTED_CF r)
    (h1seq : s.last_clip_seq < env1.seq1)
    (h1open : openRetry env1.openOk = true) (h1enum : env1.enumOk = true)
    (h1clip : env1.clip = [(A, a), (B, b)])
    (hrA : env1.readOk A = true) (hrB : env1.readOk B = true)
    (h2seq : env1.seq2 < env2.seq1)
    (h2open : openRetry env2.openOk = true) (h2enum : env2.enumOk = true)
    (h2clip : env2.clip = [])
    (hwA : env2.writeOk A = true) (hwB : env2.writeOk B = true) :
    (process_clip r env2 (process_clip r env1 s).state).clip =
      [(A, a), (B, b)] := by
  have hback : backup_clipboard r env1.readOk env1.clip = [(A, a), (B, b)] := by
    rw [h1clip]
    simp [backup_clipboard, backupLoop, hA, hB, hrA, hrB]
  have h1 : (process_clip r env1 s).state = ⟨[(A, a), (B, b)], env1.seq2⟩ := by
    unfold process_clip
    rw [if_neg (Nat.not_le.mpr h1seq), if_pos h1open, if_pos h1enum,
      if_pos (by rw [h1clip]; simp : env1.clip ≠ [])]
    rw [hback]
  have hrest : restoreLoop env2.writeOk [(A, a), (B, b)] =
      ([(A, a), (B, b)], [A, B], false) := by
    simp [restoreLoop, hwA, hwB]
  rw [h1]
  unfold process_clip
  rw [if_neg (Nat.not_le.mpr h2seq), if_pos h2open, if_pos h2enum,
    if_neg (by rw [h2clip]; simp : ¬ env2.clip ≠ [])]
  simp [restore_clipboard, hrest]

/-- Witness for C1 with formats `CF_TEXT = 1` and `CF_UNICODETEXT = 13`. -/
theorem round_trip_backup_clear_restore_witness :
    (process_clip sampleFormats
      ⟨5, fun _ => true, true, [], fun _ => true, fun _ => true, 6⟩
      (process_clip sampleFormats
        ⟨3, fun _ => true, true, [(1, [10]), (13, [11])], fun _ => true,
          fun _ => true, 4⟩
        ⟨[], 0⟩).state).clip = [(1, [10]), (13, [11])] :=
  round_trip_backup_clear_restore sampleFormats _ _ _ 1 13 [10] [11]
    (by decide) (by decide) (by decide) (by decide) rfl rfl rfl rfl rfl
    (by decide) rfl rfl rfl rfl rfl

/-- C3: for a backup pass in which every per-format read succeeds, the key
set of the resulting snapshot is exactly the enumerated formats intersected
with the allow-list; unconditionally, every key of the snapshot produced by
a backup lies in the allow-list. -/
theorem backup_captures_exactly_allowlist (r : RegisteredFormats)
    (readOk : Nat → Bool) (clip : Clip) :
    (∀ p ∈ backup_clipboard r readOk clip, p.1 ∈ SUPPORTED_CF r) ∧
    ((∀ f ∈ List.map Prod.fst clip, readOk f = true) →
      ∀ g, g ∈ List.map Prod.fst (backup_clipboard r readOk clip) ↔
        (g ∈ List.map Prod.fst clip ∧ g ∈ SUPPORTED_CF r)) :=
  ⟨fun p hp => (backupLoop_mem r readOk clip p hp).2,
   fun h g => backupLoop_keys r readOk clip h g⟩

/-- Witness for C3: on the clipboard `[(1, _), (999, _), (13, _)]` with all
reads succeeding, format 13 is captured while the unsupported format 999 is
not. -/
theorem backup_captures_exactly_allowlist_witness :
    13 ∈ List.map Prod.fst (backup_clipboard sampleFormats (fun _ => true)
      [(1, [10]), (999, [12]), (13, [11])]) ∧
    ¬ 999 ∈ List.map Prod.fst (backup_clipboard sampleFormats (fun _ => true)
      [(1, [10]), (999, [12]), (13, [11])]) := by
  have h := backup_captures_exactly_allowlist sampleFormats (fun _ => true)
    [(1, [10]), (999, [12]), (13, [11])]
  refine ⟨(h.2 (by decide) 13).mpr (by decide), fun hc => ?_⟩
  exact absurd ((h.2 (by decide) 999).mp hc).2 (by decide)

/-- C4 counterexample: an enumeration failure is not contained.  The
`try` block of lines 91-99 has no `except` clause, so a failing
`EnumClipboardFormats(0)` (line 92) raises out of `_process_clip`; and when
`listen` is called on a stopped watcher with `_trigger_at_start` set, the
synchronous `self._process_clip()` call in lines 151-152 lets that
exception propagate to the caller of `listen`. -/
theorem enum_failure_escapes_to_listen_caller :
    Clipboard.listen_raises sampleFormats true
      ⟨1, fun _ => true, false, [(1, [10])], fun _ => true, fun _ => true, 2⟩
      ⟨[], 0⟩ 0 = true := by
  decide

/-- C4 (amended): per-format read failures during backup and per-format
write failures during restore are contained: whenever clipboard access is
acquired and enumeration succeeds, no exception leaves `_process_clip`,
regardless of `readOk` and `writeOk`; consequently no exception reaches
the caller of `listen`, whatever `_trigger_at_start` and the listener
state are.  (Without the acquisition and enumeration assumptions the
containment fails, as the counterexample shows.) -/
theorem format_failures_contained (r : RegisteredFormats)
    (env : ClipEnv) (s : ClipState)
    (hopen : openRetry env.openOk = true) (henum : env.enumOk = true) :
    (process_clip r env s).raised = false ∧
    (∀ trig : Bool, ∀ tid : ListenerState,
      Clipboard.listen_raises r trig env s tid = false) := by
  have hp : (process_clip r env s).raised = false := by
    unfold process_clip
    split
    · rfl
    · split
      · rfl
      · rfl
  refine ⟨hp, fun trig tid => ?_⟩
  unfold Clipboard.listen_raises
  split
  · rfl
  · split
    · exact hp
    · rfl

/-- Witness for the amended C4: every read and every write fails, yet the
evaluation raises nothing and a triggered `listen` raises nothing. -/
theorem format_failures_contained_witness :
    (process_clip sampleFormats
      ⟨3, fun _ => true, true, [(1, [10]), (13, [11])], fun _ => false,
        fun _ => false, 4⟩ ⟨[(1, [2])], 0⟩).raised = false ∧
    Clipboard.listen_raises sampleFormats true
      ⟨3, fun _ => true, true, [(1, [10]), (13, [11])], fun _ => false,
        fun _ => false, 4⟩ ⟨[(1, [2])], 0⟩ 0 = false := by
  have h := format_failures_contained sampleFormats
    ⟨3, fun _ => true, true, [(1, [10]), (13, [11])], fun _ => false,
      fun _ => false, 4⟩ ⟨[(1, [2])], 0⟩ rfl rfl
  exact ⟨h.1, h.2 true 0⟩

/-- C5 evidence: when every one of the four `OpenClipboard` attempts fails,
the retry loop of lines 82-89 falls through with the clipboard never
opened; `EnumClipboardFormats(0)` (line 92) then raises, the
`CloseClipboard()` in the `finally` block (line 101) raises as well, so
line 103 never runs: the evaluation performs no backup and no restore, but
instead of logging and returning it lets an exception escape, and the
cursor `_last_clip_seq` is left at its old value. -/
theorem acquire_failure_falls_through_and_raises :
    process_clip sampleFormats
      ⟨1, fun _ => false, true, [(1, [10])], fun _ => true, fun _ => true, 2⟩
      ⟨[], 0⟩ =
      { state := { clip_data := [], last_clip_seq := 0 },
        clip := [(1, [10])], acquired := false, released := false,
        didBackup := false, didRestore := false, emptied := false,
        writes := [], raised := true } := by
  decide

/-- C6: restoring a non-empty snapshot whose entries up to a first failing
format all write successfully: the failure is logged, the writes stop at
the failing format (nothing after it is attempted), the function returns
normally (the `except` clause of lines 140-143 swallows the exception), and
the formats written before the failure remain on the clipboard. -/
theorem restore_write_failure_aborts (writeOk : Nat → Bool)
    (s1 s2 clip : Clip) (f : Nat) (b : Bytes)
    (h1 : ∀ g ∈ List.map Prod.fst s1, writeOk g = true)
    (hf : writeOk f = false) :
    restore_clipboard writeOk (s1 ++ (f, b) :: s2) clip =
      { clip := s1, emptied := true,
        writes := List.map Prod.fst s1 ++ [f], errorLogged := true } := by
  have hne : s1 ++ (f, b) :: s2 ≠ [] := by simp
  unfold restore_clipboard
  rw [if_neg hne, restoreLoop_prefix writeOk f b s2 s1 h1 hf]

/-- Witness for C6: snapshot `[(1, _), (13, _), (17, _)]` where writing
format 13 fails: format 1 remains written, 13 was attempted, 17 was not. -/
theorem restore_write_failure_aborts_witness :
    restore_clipboard (fun g => g != 13) [(1, [10]), (13, [11]), (17, [9])]
      [(5, [5])] =
      { clip := [(1, [10])], emptied := true, writes := [1, 13],
        errorLogged := true } :=
  restore_write_failure_aborts (fun g => g != 13) [(1, [10])] [(17, [9])]
    [(5, [5])] 13 [11] (by decide) (by decide)

/-- C7: restore invoked with an empty snapshot returns at the check of
lines 127-129: the clipboard is not emptied, no `SetClipboardData` call is
made, no error is logged, and the clipboard contents are unchanged. -/
theorem restore_empty_snapshot_noop (writeOk : Nat → Bool) (clip : Clip) :
    restore_clipboard writeOk [] clip =
      { clip := clip, emptied := false, writes := [], errorLogged := false } :=
  rfl

/-- C8: the listener lifecycle on `_thread_id`.  From Stopped (0), `listen`
transitions to Running (the positive listening thread id) and creates the
listening context; `listen` while Running returns at the check of
lines 147-149 without creating a second context; `stop` while Running posts
`WM_QUIT` and ends in Stopped; `stop` while Stopped posts nothing and
changes nothing.  These are the only transitions. -/
theorem listener_state_machine (tid t : Nat) (htid : tid > 0) (ht : t > 0) :
    (Clipboard.listen tid 0 = (tid, true) ∧ (Clipboard.listen tid 0).1 > 0) ∧
    Clipboard.listen tid t = (t, false) ∧
    Clipboard.stop t = (0, true) ∧
    Clipboard.stop 0 = (0, false) := by
  refine ⟨⟨?_, ?_⟩, ?_, ?_, ?_⟩
  · simp [Clipboard.listen]
  · simpa [Clipboard.listen] using htid
  · simp [Clipboard.listen, ht]
  · simp [Clipboard.stop, ht]
  · simp [Clipboard.stop]

/-- Witness for C8 with thread ids 5 and 7. -/
theorem listener_state_machine_witness :
    (Clipboard.listen 5 0 = (5, true) ∧ (Clipboard.listen 5 0).1 > 0) ∧
    Clipboard.listen 5 7 = (7, false) ∧
    Clipboard.stop 7 = (0, true) ∧
    Clipboard.stop 0 = (0, false) :=
  listener_state_machine 5 7 (by decide) (by decide)

/-- C9: whenever an evaluation acquires clipboard access, the `finally`
block of lines 100-103 both releases the access and stores the freshly
re-read sequence number `seq2` (not the `seq1` read at entry) into
`_last_clip_seq` — also when the `try` body raised. -/
theorem release_and_fresh_cursor_on_acquire (r : RegisteredFormats)
    (env : ClipEnv) (s : ClipState)
    (h : (process_clip r env s).acquired = true) :
    (process_clip r env s).released = true ∧
    (process_clip r env s).state.last_clip_seq = env.seq2 := by
  by_cases hdup : s.last_clip_seq ≥ env.seq1
  · unfold process_clip at h
    rw [if_pos hdup] at h
    simp at h
  · by_cases hopen : openRetry env.openOk = true
    · by_cases henum : env.enumOk = true
      · by_cases hclip : env.clip ≠ []
        · unfold process_clip
          rw [if_neg hdup, if_pos hopen, if_pos henum, if_pos hclip]
          exact ⟨rfl, rfl⟩
        · unfold process_clip
          rw [if_neg hdup, if_pos hopen, if_pos henum, if_neg hclip]
          exact ⟨rfl, rfl⟩
      · unfold process_clip
        rw [if_neg hdup, if_pos hopen, if_neg henum]
        exact ⟨rfl, rfl⟩
    · unfold process_clip at h
      rw [if_neg hdup, if_neg hopen] at h
      simp at h

/-- Witness for C9 at an evaluation whose `try` body raises (enumeration
fails): the clipboard is still released and the cursor becomes the fresh
sequence number 9, not the entry number 3. -/
theorem release_and_fresh_cursor_witness :
    (process_clip sampleFormats
      ⟨3, fun _ => true, false, [(1, [10])], fun _ => true, fun _ => true, 9⟩
      ⟨[], 0⟩).released = true ∧
    (process_clip sampleFormats
      ⟨3, fun _ => true, false, [(1, [10])], fun _ => true, fun _ => true, 9⟩
      ⟨[], 0⟩).state.last_clip_seq = 9 :=
  release_and_fresh_cursor_on_acquire sampleFormats _ _ (by decide)

/-- C10: restoring a non-empty snapshot empties the clipboard before any
write is attempted (line 132 precedes the loop of lines 134-143), so a
failure of the very first write leaves the clipboard empty; and no path of
the evaluation writes to `_clip_data` during a restore, so after an
evaluation that invoked `_restore_clipboard` the snapshot equals what it
was before. -/
theorem restore_empties_first_and_preserves_snapshot
    (writeOk : Nat → Bool) (f : Nat) (b : Bytes) (rest clip : Clip)
    (r : RegisteredFormats) (env : ClipEnv) (s : ClipState) :
    (restore_clipboard writeOk ((f, b) :: rest) clip).emptied = true ∧
    (writeOk f = false →
      (restore_clipboard writeOk ((f, b) :: rest) clip).clip = []) ∧
    ((process_clip r env s).didRestore = true →
      (process_clip r env s).state.clip_data = s.clip_data) := by
  refine ⟨?_, ?_, ?_⟩
  · simp [restore_clipboard]
  · intro hf
    simp [restore_clipboard, restoreLoop, hf]
  · intro h
    by_cases hdup : s.last_clip_seq ≥ env.seq1
    · unfold process_clip
      rw [if_pos hdup]
    · by_cases hopen : openRetry env.openOk = true
      · by_cases henum : env.enumOk = true
        · by_cases hclip : env.clip ≠ []
          · unfold process_clip at h
            rw [if_neg hdup, if_pos hopen, if_pos henum, if_pos hclip] at h
            simp at h
          · unfold process_clip
            rw [if_neg hdup, if_pos hopen, if_pos henum, if_neg hclip]
        · unfold process_clip
          rw [if_neg hdup, if_pos hopen, if_neg henum]
      · unfold process_clip
        rw [if_neg hdup, if_neg hopen]

/-- Witness for C10: with every write failing, restoring the snapshot
`[(1, _)]` leaves the clipboard empty after emptying it; and a concrete
evaluation that restores preserves the snapshot `[(1, [10])]`. -/
theorem restore_empties_first_and_preserves_snapshot_witness :
    (restore_clipboard (fun _ => false) [(1, [10])] [(5, [6])]).emptied = true ∧
    (restore_clipboard (fun _ => false) [(1, [10])] [(5, [6])]).clip = [] ∧
    (process_clip sampleFormats
      ⟨3, fun _ => true, true, [], fun _ => true, fun _ => false, 4⟩
      ⟨[(1, [10])], 0⟩).state.clip_data = [(1, [10])] := by
  have h := restore_empties_first_and_preserves_snapshot
    (fun _ => false) 1 [10] [] [(5, [6])] sampleFormats
    ⟨3, fun _ => true, true, [], fun _ => true, fun _ => false, 4⟩
    ⟨[(1, [10])], 0⟩
  exact ⟨h.1, h.2.1 rfl, h.2.2 (by decide)⟩
